import Mathlib

/-
Verification of the confidence-gated alert-response decision engine of the
self-healing workshop repository, as implemented in
`examples/python/lightspeed_client.py` and
`examples/python/pattern_alert_response.py`.

Modelling conventions:
- A Python dictionary payload is a record of `Option` fields: `none` means the
  key is absent, `some v` means the key is present with value `v`.
- Confidence values and thresholds are rationals (`ℚ`); the comparisons the
  code performs (`>` against the literal `0.8`) are order comparisons that
  rationals model exactly for the values involved.
- A raised `KeyError` is an `Except.error`; a function that cannot raise is a
  plain total function.
- The outcome of the one network call (`requests.Session.post` followed by
  `response.json()`) is an explicit input of type `HttpResult`; the wall-clock
  value `datetime.now().isoformat()` is an explicit input `now : String`.
-/

namespace SelfHealing

/-- The raw assistant response dictionary (the parsed JSON body, or one of the
failure dictionaries built by the client). Each field is the value stored
under the corresponding key, `none` when the key is absent. -/
structure AssistantResponse where
  error : Option String
  answer : Option String
  confidence : Option ℚ
  sources : Option (List String)
  recommendations : Option (List String)
  deriving DecidableEq

/-- The failure-shaped response dictionary the client returns on any failure:
exactly one key, `error`, holding the message. -/
def errorResponse (message : String) : AssistantResponse :=
  { error := some message, answer := none, confidence := none,
    sources := none, recommendations := none }

/-- The dictionary `extract_insights` returns (`pattern_alert_response.py`
lines 41-54): either the two-key error dictionary
`{status: error, message}` or the six-key success dictionary
`{status: success, timestamp, answer, confidence, sources, recommendations}`. -/
inductive Insight where
  | error (message : String)
  | success (timestamp : String) (answer : String) (confidence : ℚ)
      (sources : List String) (recommendations : List String)
  deriving DecidableEq

/-- `extract_insights` (`pattern_alert_response.py` lines 31-54).
`now` is the value of `datetime.now().isoformat()` at the invocation. -/
def extract_insights (response : AssistantResponse) (now : String) : Insight :=
  match response.error with
  | some message => .error message
  | none =>
      .success now (response.answer.getD "") (response.confidence.getD 0)
        (response.sources.getD []) (response.recommendations.getD [])

/-- The context dictionary built from an alert (`pattern_alert_response.py`
lines 70-75): exactly the four keys alert_name, namespace, severity,
description. `nspace` stands for the `namespace` key (a Lean keyword). -/
structure QueryContext where
  alert_name : String
  nspace : String
  severity : String
  description : String
  deriving DecidableEq

/-- The `labels` dictionary of a Prometheus alert, restricted to the keys the
code reads; each may be absent. -/
structure AlertLabels where
  alertname : Option String
  nspace : Option String
  severity : Option String
  deriving DecidableEq

/-- The `annotations` dictionary of a Prometheus alert, restricted to the key
the code reads. -/
structure AlertAnnotations where
  description : Option String
  deriving DecidableEq

/-- A Prometheus alert dictionary: the `labels` and `annotations` keys may
themselves be absent (the code indexes both with `[]`, which raises). -/
structure Alert where
  labels : Option AlertLabels
  annotations : Option AlertAnnotations
  deriving DecidableEq

deriving instance DecidableEq for Except

/-- The outcome of the POST to the server as seen inside the `try` block of
`LightspeedClient.query`:
- `response status text json`: the request completed with an HTTP status and
  body text; `json` is the result of parsing the body (`Except.error` when
  `response.json()` would raise, carrying that exception's message);
- `requestException`: the request raised `requests.exceptions.RequestException`
  (connection refused, DNS failure, timeout);
- `otherException`: the request raised any other exception. -/
inductive HttpResult where
  | response (status : Nat) (text : String) (json : Except String AssistantResponse)
  | requestException (message : String)
  | otherException (message : String)
  deriving DecidableEq

namespace LightspeedClient

/-- `LightspeedClient.query` (`lightspeed_client.py` lines 42-73). The
`question` and `context` arguments form the request payload; the server's
behaviour on that payload is captured by the `http` input. A parse failure of
a 200 body (`response.json()` raising `requests.exceptions.JSONDecodeError`,
a `RequestException`) is caught by the first except clause. -/
def query (question : String) (context : Option QueryContext)
    (http : HttpResult) : AssistantResponse :=
  match question, context, http with
  | _, _, .response status text json =>
      if status = 200 then
        match json with
        | .ok body => body
        | .error e => errorResponse ("Request failed: " ++ e)
      else
        errorResponse ("HTTP " ++ toString status ++ ": " ++ text)
  | _, _, .requestException e => errorResponse ("Request failed: " ++ e)
  | _, _, .otherException e => errorResponse ("Unexpected error: " ++ e)

end LightspeedClient

/-- The decision dictionary `handle_prometheus_alert` returns
(`pattern_alert_response.py` lines 88-112): the error shape has exactly the
keys `{action, message}`; auto_remediate has
`{action, alert, confidence, recommendations, analysis}` with `analysis` the
answer text; escalate has `{action, alert, confidence, analysis, reason}`
with `analysis` the full insight dictionary. -/
inductive Decision where
  | error (message : String)
  | autoRemediate (alert : String) (confidence : ℚ)
      (recommendations : List String) (analysis : String)
  | escalate (alert : String) (confidence : ℚ) (analysis : Insight)
      (reason : String)
  deriving DecidableEq

/-- The `action` key of the decision dictionary. -/
def Decision.action : Decision → String
  | .error _ => "error"
  | .autoRemediate _ _ _ _ => "auto_remediate"
  | .escalate _ _ _ _ => "escalate"

/-- Whether the decision dictionary carries the `alert` key (the alert name).
The error shape has no such key. -/
def Decision.hasAlert : Decision → Bool
  | .error _ => false
  | .autoRemediate _ _ _ _ => true
  | .escalate _ _ _ _ => true

/-- Whether the decision dictionary carries the `confidence` key.
The error shape has no such key. -/
def Decision.hasConfidence : Decision → Bool
  | .error _ => false
  | .autoRemediate _ _ _ _ => true
  | .escalate _ _ _ _ => true

/-- The decision logic of `handle_prometheus_alert`
(`pattern_alert_response.py` lines 88-112), with the alert name passed in for
the two branches that read `alert.labels.alertname`. The threshold is the
hardcoded literal `0.8` of line 95. -/
def decide (insights : Insight) (alertname : String) : Decision :=
  match insights with
  | .error message => .error message
  | .success timestamp answer confidence sources recommendations =>
      if confidence > 0.8 then
        .autoRemediate alertname confidence recommendations answer
      else
        .escalate alertname confidence
          (.success timestamp answer confidence sources recommendations)
          "Low confidence in automated remediation"

/-- The DecisionEngine as the specification words it (spec section 4.4): the
same three-way classification, but with the confidence threshold an explicit
injected parameter (documented default 0.8) instead of a hardcoded literal.
Stated separately so the code's `decide` can be compared against it. -/
def decideT (threshold : ℚ) (insights : Insight) (alertname : String) : Decision :=
  match insights with
  | .error message => .error message
  | .success timestamp answer confidence sources recommendations =>
      if confidence > threshold then
        .autoRemediate alertname confidence recommendations answer
      else
        .escalate alertname confidence
          (.success timestamp answer confidence sources recommendations)
          "Low confidence in automated remediation"

/-- The context-building prefix of `handle_prometheus_alert`
(`pattern_alert_response.py` lines 70-83, the AlertContextBuilder of the
spec): the question string and the context dictionary. `alert.labels`,
`labels.alertname` and `alert.annotations` are indexed with `[]` and raise
`KeyError` when absent (in the evaluation order of the dict literal);
namespace, severity and description are read with `.get` and fall back to
"default", "warning" and the empty string. -/
def buildContext (alert : Alert) : Except String (String × QueryContext) :=
  match alert.labels with
  | none => .error "KeyError: labels"
  | some labels =>
      match labels.alertname with
      | none => .error "KeyError: alertname"
      | some name =>
          match alert.annotations with
          | none => .error "KeyError: annotations"
          | some ann =>
              let context : QueryContext :=
                { alert_name := name,
                  nspace := labels.nspace.getD "default",
                  severity := labels.severity.getD "warning",
                  description := ann.description.getD "" }
              .ok ("Analyze this alert and suggest remediation: " ++ context.description,
                   context)

/-- `handle_prometheus_alert` (`pattern_alert_response.py` lines 57-112):
build the context, query the server (outcome `http`), extract insights
(at wall-clock `now`), decide. A `KeyError` from the context build propagates
to the caller as `Except.error`. -/
def handle_prometheus_alert (alert : Alert) (http : HttpResult) (now : String) :
    Except String Decision :=
  match buildContext alert with
  | .error e => .error e
  | .ok (question, context) =>
      let analysis := LightspeedClient.query question (some context) http
      let insights := extract_insights analysis now
      .ok (decide insights context.alert_name)

/-- Erase the timestamp field of an insight, leaving every other field. -/
def Insight.stripTimestamp : Insight → Insight
  | .error message => .error message
  | .success _ answer confidence sources recommendations =>
      .success "" answer confidence sources recommendations

/-- C1: for a Success insight, the decision engine with threshold `t` returns
the auto_remediate action iff the confidence is strictly greater than `t`,
and the escalate action iff the confidence is at most `t`; an Error insight
yields the error action for every `t`, regardless of any confidence; and the
code's `decide` (threshold 0.8) escalates at confidence exactly 0.8, the
strict-inequality boundary. -/
theorem decide_threshold_policy (t : ℚ) (name timestamp answer : String)
    (confidence : ℚ) (sources recommendations : List String) :
    ((decideT t (.success timestamp answer confidence sources recommendations) name).action
        = "auto_remediate" ↔ confidence > t)
    ∧ ((decideT t (.success timestamp answer confidence sources recommendations) name).action
        = "escalate" ↔ confidence ≤ t)
    ∧ (∀ message, (decideT t (.error message) name).action = "error")
    ∧ (decide (.success timestamp answer 0.8 sources recommendations) name).action
        = "escalate" := by
  refine ⟨?_, ?_, fun message => rfl, ?_⟩
  · by_cases h : confidence > t <;> simp [decideT, Decision.action, h]
  · by_cases h : confidence > t
    · simp [decideT, Decision.action, h]
    · simp [decideT, Decision.action, h]
      exact le_of_not_lt h
  · simp [decide, Decision.action]

/-- C2: `extract_insights` is total and never fails; a response carrying an
error yields the error insight with the message copied, and otherwise the
success insight is built with answer defaulting to the empty string,
confidence to 0, sources and recommendations to the empty list when those
keys are absent. -/
theorem extract_insights_total (response : AssistantResponse) (now : String) :
    (∀ message, response.error = some message →
        extract_insights response now = .error message)
    ∧ (response.error = none →
        extract_insights response now =
          .success now (response.answer.getD "") (response.confidence.getD 0)
            (response.sources.getD []) (response.recommendations.getD [])) := by
  constructor
  · intro message h
    simp [extract_insights, h]
  · intro h
    simp [extract_insights, h]

/-- C3: `LightspeedClient.query` never propagates a failure to its caller:
a non-2xx HTTP status yields the failure-shaped response carrying the status
code and raw body text, a transport exception (connection refused, DNS
failure, timeout) yields the Request-failed failure shape, any other
exception yields the Unexpected-error failure shape, and an unparsable 200
body also yields a failure-shaped response. -/
theorem query_error_normalization (question : String) (context : Option QueryContext) :
    (∀ (status : Nat) (text : String) (json : Except String AssistantResponse),
        status < 200 ∨ 299 < status →
          LightspeedClient.query question context (.response status text json)
            = errorResponse ("HTTP " ++ toString status ++ ": " ++ text))
    ∧ (∀ message, LightspeedClient.query question context (.requestException message)
          = errorResponse ("Request failed: " ++ message))
    ∧ (∀ message, LightspeedClient.query question context (.otherException message)
          = errorResponse ("Unexpected error: " ++ message))
    ∧ (∀ (status : Nat) (text e : String),
        (LightspeedClient.query question context
            (.response status text (.error e))).error.isSome) := by
  refine ⟨?_, fun message => rfl, fun message => rfl, ?_⟩
  · intro status text json h
    have hne : status ≠ 200 := by omega
    simp [LightspeedClient.query, hne]
  · intro status text e
    by_cases h : status = 200 <;> simp [LightspeedClient.query, h, errorResponse]

/-- C4 counterexample: an alert whose labels dictionary lacks the `alertname`
key is rejected — `buildContext` raises a KeyError instead of returning a
(question, context) pair, refuting totality on alerts with missing fields. -/
theorem buildContext_missing_name_raises :
    buildContext ⟨some ⟨none, some "self-healing-platform", some "critical"⟩,
                  some ⟨some "Pod is using 85% CPU"⟩⟩
      = .error "KeyError: alertname" := rfl

/-- C4 (amended): `buildContext` is total on every alert whose labels carry
an alertname and whose annotations dictionary is present: it returns a
(question, context) pair for every such alert, and a missing namespace,
severity or description falls back to "default", "warning" and the empty
string; an alert missing the labels dictionary, the alertname, or the
annotations dictionary raises a KeyError instead. -/
theorem buildContext_total_when_keys_present (name : String)
    (nspace severity description : Option String) :
    (∃ p, buildContext ⟨some ⟨some name, nspace, severity⟩, some ⟨description⟩⟩ = .ok p)
    ∧ buildContext ⟨some ⟨some name, none, none⟩, some ⟨none⟩⟩
        = .ok ("Analyze this alert and suggest remediation: ",
               ⟨name, "default", "warning", ""⟩) :=
  ⟨⟨_, rfl⟩, rfl⟩

/-- C5 counterexample: an alert without the `annotations` dictionary makes
`buildContext` raise a KeyError, so no (question, context) pair is produced
for it — the claimed mapping does not hold for every Alert. -/
theorem buildContext_missing_annotations_raises :
    buildContext ⟨some ⟨some "HighPodCPU", some "self-healing-platform", some "critical"⟩,
                  none⟩
      = .error "KeyError: annotations" := rfl

/-- C5 (amended): for every alert whose labels carry an alertname and whose
annotations dictionary is present, `buildContext` produces exactly the
context {alert_name = name, namespace with fallback "default", severity with
fallback "warning", description with fallback ""} and the question equal to
"Analyze this alert and suggest remediation: " concatenated with the
(fallback-resolved) description. -/
theorem buildContext_exact_mapping (name : String)
    (nspace severity description : Option String) :
    buildContext ⟨some ⟨some name, nspace, severity⟩, some ⟨description⟩⟩
      = .ok ("Analyze this alert and suggest remediation: " ++ description.getD "",
             ⟨name, nspace.getD "default", severity.getD "warning",
              description.getD ""⟩) := rfl

/-- C6: on an Error insight, `decide` returns the error decision that copies
the error message alone and carries no confidence key; the result is the
same for every error insight, so no confidence field is consulted (an error
insight carries none). -/
theorem decide_error_no_confidence (message alertname : String) :
    decide (.error message) alertname = .error message
    ∧ (decide (.error message) alertname).hasConfidence = false := ⟨rfl, rfl⟩

/-- C7 counterexample: `extract_insights` is not a function of the response
alone — the success insight embeds the wall-clock timestamp, so two
invocations on the same response at different clock readings differ. -/
theorem extract_insights_depends_on_clock :
    extract_insights ⟨none, some "Restart the pod", some (23/25), some [], some []⟩
        "2024-01-01T00:00:00"
      ≠ extract_insights ⟨none, some "Restart the pod", some (23/25), some [], some []⟩
        "2024-01-01T00:00:01" := by decide

/-- C7 (amended): `extract_insights` is deterministic in the response up to
the timestamp field: two invocations on equal responses agree on every field
of the insight except the embedded wall-clock timestamp (error insights are
fully determined by the response alone). -/
theorem extract_insights_deterministic_up_to_timestamp (response : AssistantResponse)
    (now1 now2 : String) :
    (extract_insights response now1).stripTimestamp
      = (extract_insights response now2).stripTimestamp := by
  cases h : response.error <;> simp [extract_insights, h, Insight.stripTimestamp]

/-- C8 counterexample: the pipeline's error decision carries no alert key —
a timed-out query produces the decision {action: error, message} without the
alert name, refuting that every decision carries alertName. -/
theorem pipeline_error_decision_lacks_alert :
    handle_prometheus_alert
        ⟨some ⟨some "HighPodCPU", some "self-healing-platform", some "warning"⟩,
         some ⟨some "Pod coordination-engine-0 is using 85% CPU"⟩⟩
        (.requestException "timed out") "2024-01-01T00:00:00"
      = .ok (.error "Request failed: timed out")
    ∧ Decision.hasAlert (Decision.error "Request failed: timed out") = false :=
  ⟨rfl, rfl⟩

/-- C8 (amended): AutoRemediate and Escalate decisions carry both the alert
key and the confidence key; the Error decision carries neither — for every
insight and alert name, presence of the alert key and of the confidence key
each coincide with the action not being error. -/
theorem decide_alert_confidence_presence (insights : Insight) (alertname : String) :
    ((decide insights alertname).hasAlert = true
        ↔ (decide insights alertname).action ≠ "error")
    ∧ ((decide insights alertname).hasConfidence = true
        ↔ (decide insights alertname).action ≠ "error") := by
  cases insights with
  | error message =>
      simp [decide, Decision.action, Decision.hasAlert, Decision.hasConfidence]
  | success timestamp answer confidence sources recommendations =>
      by_cases h : confidence > 0.8 <;>
        simp [decide, Decision.action, Decision.hasAlert, Decision.hasConfidence, h]

/-- C9 counterexample: the code's decision comparison is not performed
against a caller-supplied threshold — at threshold 0 the parametrized engine
auto-remediates a confidence of 1/2, while the code escalates it, because
the code compares against the hardcoded literal 0.8. -/
theorem decide_ignores_injected_threshold :
    decide (.success "2024-01-01T00:00:00" "Restart the pod" (1/2) [] []) "HighPodCPU"
      ≠ decideT 0 (.success "2024-01-01T00:00:00" "Restart the pod" (1/2) [] [])
          "HighPodCPU" := by
  norm_num [decide, decideT]
  intro h
  exact Decision.noConfusion h

/-- C9 (amended): the decision engine's threshold is the hardcoded literal
0.8, not an injected parameter: for every insight and alert name the code's
`decide` coincides with the spec's parametrized engine applied at 0.8 (and
only the comparison against 0.8 is ever performed). -/
theorem decide_eq_decideT_default (insights : Insight) (alertname : String) :
    decide insights alertname = decideT 0.8 insights alertname := by
  cases insights <;> rfl

/-- C10: the error check takes precedence over every success field — a
response carrying an error message yields the error insight with that
message even when answer, confidence, sources and recommendations are all
present. -/
theorem extract_insights_error_precedence (message answer now : String)
    (confidence : ℚ) (sources recommendations : List String) :
    extract_insights
        ⟨some message, some answer, some confidence, some sources, some recommendations⟩
        now
      = .error message := rfl

end SelfHealing
